import Mathlib

/-
Verification development for the `src/models.py` schema module: an
object-relational schema for a simplified Instagram-like domain (User,
Follower, Post, Comment, Media) plus a diagram renderer that emits one
styled node per table and one edge per foreign-key relationship.

The schema declarations (tables, columns, uniqueness, foreign keys,
cascade relationships, column defaults) and the diagram builder are
embedded faithfully from the source.  The repository itself contains no
insert or delete code: constraint enforcement at write time is performed
by the storage engine.  Those enforcement operations are modelled from
the spec and marked as such in their doc comments.
-/

namespace Models

/-- MediaType enum from the source: IMAGE, VIDEO, GIF. -/
inductive MediaType where
  | IMAGE
  | VIDEO
  | GIF
  deriving DecidableEq, Repr

/-- The stored string value of each MediaType member (enum.Enum value). -/
def MediaType.value : MediaType → String
  | .IMAGE => "IMAGE"
  | .VIDEO => "VIDEO"
  | .GIF => "GIF"

/-- The set of admissible stored values for the `media.type` column. -/
def mediaTypeValues : List String := ["IMAGE", "VIDEO", "GIF"]

/- ------------------------------------------------------------------
   Schema as data: the declared tables, columns and foreign keys.
   ------------------------------------------------------------------ -/

/-- One declared column: name, nullability, uniqueness, primary-key flag,
and (when a ForeignKey is declared on it) the referenced table and column. -/
structure ColumnSpec where
  name : String
  primaryKey : Bool
  unique : Bool
  nullable : Bool
  fkey : Option (String × String)
  deriving DecidableEq, Repr

/-- One declared table: its `__tablename__` and the list of its columns. -/
structure TableSpec where
  name : String
  cols : List ColumnSpec
  deriving DecidableEq, Repr

/-- `users` table as declared in the source. -/
def usersTable : TableSpec :=
  { name := "users"
    cols :=
      [ { name := "id", primaryKey := true, unique := false, nullable := true, fkey := none }
      , { name := "username", primaryKey := false, unique := true, nullable := false, fkey := none }
      , { name := "firstname", primaryKey := false, unique := false, nullable := false, fkey := none }
      , { name := "lastname", primaryKey := false, unique := false, nullable := false, fkey := none }
      , { name := "email", primaryKey := false, unique := true, nullable := false, fkey := none } ] }

/-- `follower` table as declared in the source. -/
def followerTable : TableSpec :=
  { name := "follower"
    cols :=
      [ { name := "id", primaryKey := true, unique := false, nullable := true, fkey := none }
      , { name := "user_from_id", primaryKey := false, unique := false, nullable := false,
          fkey := some ("users", "id") }
      , { name := "user_to_id", primaryKey := false, unique := false, nullable := false,
          fkey := some ("users", "id") }
      , { name := "followed_at", primaryKey := false, unique := false, nullable := true, fkey := none } ] }

/-- `post` table as declared in the source. -/
def postTable : TableSpec :=
  { name := "post"
    cols :=
      [ { name := "id", primaryKey := true, unique := false, nullable := true, fkey := none }
      , { name := "user_id", primaryKey := false, unique := false, nullable := false,
          fkey := some ("users", "id") }
      , { name := "caption", primaryKey := false, unique := false, nullable := true, fkey := none }
      , { name := "created_at", primaryKey := false, unique := false, nullable := true, fkey := none } ] }

/-- `comment` table as declared in the source. -/
def commentTable : TableSpec :=
  { name := "comment"
    cols :=
      [ { name := "id", primaryKey := true, unique := false, nullable := true, fkey := none }
      , { name := "comment_text", primaryKey := false, unique := false, nullable := false, fkey := none }
      , { name := "author_id", primaryKey := false, unique := false, nullable := false,
          fkey := some ("users", "id") }
      , { name := "post_id", primaryKey := false, unique := false, nullable := false,
          fkey := some ("post", "id") }
      , { name := "created_at", primaryKey := false, unique := false, nullable := true, fkey := none } ] }

/-- `media` table as declared in the source. -/
def mediaTable : TableSpec :=
  { name := "media"
    cols :=
      [ { name := "id", primaryKey := true, unique := false, nullable := true, fkey := none }
      , { name := "type", primaryKey := false, unique := false, nullable := false, fkey := none }
      , { name := "url", primaryKey := false, unique := false, nullable := false, fkey := none }
      , { name := "post_id", primaryKey := false, unique := false, nullable := false,
          fkey := some ("post", "id") }
      , { name := "uploaded_at", primaryKey := false, unique := false, nullable := true, fkey := none } ] }

/-- All tables registered on the declarative base metadata, in declaration order. -/
def metadataTableSpecs : List TableSpec :=
  [usersTable, followerTable, postTable, commentTable, mediaTable]

/-- Columns of table `t` that carry a ForeignKey referencing table `parent`. -/
def TableSpec.fkColsTo (t : TableSpec) (parent : String) : List String :=
  (t.cols.filter (fun c =>
    match c.fkey with
    | some pr => pr.1 == parent
    | none => false)).map (fun c => c.name)

/-- One `relationship(...)` declaration: the parent (declaring) table, the
child (related) table, the explicit `foreign_keys=` list when given, and
whether the cascade string is the `all, delete-orphan` cascade. -/
structure RelSpec where
  parent : String
  child : String
  explicitFKCols : Option (List String)
  cascadeAllDeleteOrphan : Bool
  deriving DecidableEq, Repr

/-- `User.posts = relationship('Post', backref='user', cascade='all, delete-orphan')`. -/
def userPostsRel : RelSpec :=
  { parent := "users", child := "post", explicitFKCols := none, cascadeAllDeleteOrphan := true }

/-- `User.comments = relationship('Comment', backref='author', cascade='all, delete-orphan')`. -/
def userCommentsRel : RelSpec :=
  { parent := "users", child := "comment", explicitFKCols := none, cascadeAllDeleteOrphan := true }

/-- `User.media = relationship('Media', backref='owner', cascade='all, delete-orphan')`. -/
def userMediaRel : RelSpec :=
  { parent := "users", child := "media", explicitFKCols := none, cascadeAllDeleteOrphan := true }

/-- `User.following = relationship('Follower', foreign_keys='Follower.user_from_id', ...)`. -/
def userFollowingRel : RelSpec :=
  { parent := "users", child := "follower", explicitFKCols := some ["user_from_id"],
    cascadeAllDeleteOrphan := true }

/-- `User.followers = relationship('Follower', foreign_keys='Follower.user_to_id', ...)`. -/
def userFollowersRel : RelSpec :=
  { parent := "users", child := "follower", explicitFKCols := some ["user_to_id"],
    cascadeAllDeleteOrphan := true }

/-- `Post.comments = relationship('Comment', backref='post', cascade='all, delete-orphan')`. -/
def postCommentsRel : RelSpec :=
  { parent := "post", child := "comment", explicitFKCols := none, cascadeAllDeleteOrphan := true }

/-- `Post.media = relationship('Media', backref='post', cascade='all, delete-orphan')`. -/
def postMediaRel : RelSpec :=
  { parent := "post", child := "media", explicitFKCols := none, cascadeAllDeleteOrphan := true }

/-- Look up a declared table by name in the metadata. -/
def tableNamed (n : String) : Option TableSpec :=
  metadataTableSpecs.find? (fun t => t.name == n)

/-- The join columns the object-relational mapper can infer for a
relationship: the child table's foreign-key columns that reference the
parent table, restricted to the declared `foreign_keys=` list when one is
given.  Mapper configuration fails when this list is empty (no foreign
keys linking the two tables) and is ambiguous when it has more than one
element and no explicit list was given. -/
def RelSpec.joinCols (r : RelSpec) : List String :=
  match tableNamed r.child with
  | none => []
  | some t =>
      let cands := t.fkColsTo r.parent
      match r.explicitFKCols with
      | some fks => cands.filter (fun c => fks.contains c)
      | none => cands

/-- A relationship is configurable exactly when a single join column is found. -/
def RelSpec.configurable (r : RelSpec) : Bool :=
  r.joinCols.length == 1

/-- All relationship declarations registered on the declarative base, in
declaration order.  Mapper configuration is registry-wide: the first ORM
operation configures all of them together and aborts on the first
failure, whichever mapped class the operation touches. -/
def allORMRelationships : List RelSpec :=
  [userPostsRel, userCommentsRel, userMediaRel, userFollowingRel, userFollowersRel,
   postCommentsRel, postMediaRel]

/-- Whether registry-wide mapper configuration succeeds: every declared
relationship must resolve to exactly one join column. -/
def mappersConfigurable : Bool :=
  allORMRelationships.all RelSpec.configurable

/- ------------------------------------------------------------------
   Stored rows and database state.  Timestamp columns are nullable in
   the schema, so they are held as `Option Nat` (a `Nat` instant).
   ------------------------------------------------------------------ -/

/-- A stored `users` row. -/
structure UserRow where
  id : Nat
  username : String
  firstname : String
  lastname : String
  email : String
  deriving DecidableEq, Repr

/-- A stored `follower` row. -/
structure FollowerRow where
  id : Nat
  user_from_id : Nat
  user_to_id : Nat
  followed_at : Option Nat
  deriving DecidableEq, Repr

/-- A stored `post` row. -/
structure PostRow where
  id : Nat
  user_id : Nat
  caption : Option String
  created_at : Option Nat
  deriving DecidableEq, Repr

/-- A stored `comment` row. -/
structure CommentRow where
  id : Nat
  comment_text : String
  author_id : Nat
  post_id : Nat
  created_at : Option Nat
  deriving DecidableEq, Repr

/-- A stored `media` row.  The `type` field holds the stored enum value
(the string the storage engine receives for the `Enum(MediaType)` column). -/
structure MediaRow where
  id : Nat
  type : String
  url : String
  post_id : Nat
  uploaded_at : Option Nat
  deriving DecidableEq, Repr

/-- The stored state: one list of rows per declared table. -/
structure DB where
  users : List UserRow
  followers : List FollowerRow
  posts : List PostRow
  comments : List CommentRow
  media : List MediaRow
  deriving DecidableEq, Repr

/-- The declared cascade semantics of deleting a Post: `Post.comments`
and `Post.media` both carry `cascade='all, delete-orphan'`, joined on
`Comment.post_id` and `Media.post_id`, so the post's comments and media
are removed together with the post row itself.  This is only the
success path: an ORM deletion reaches it only after registry-wide
mapper configuration succeeds (see `DB.ormDeletePost`). -/
def DB.deletePost (db : DB) (pid : Nat) : DB :=
  { db with
    posts := db.posts.filter (fun p => p.id != pid)
    comments := db.comments.filter (fun c => c.post_id != pid)
    media := db.media.filter (fun m => m.post_id != pid) }

/-- The error raised at mapper configuration for `User.media`, which has
no foreign key linking `media` to `users`. -/
def noForeignKeysMsg : String :=
  "NoForeignKeysError: could not determine join condition for relationship User.media"

/-- An ORM deletion of a Post: the session's first operation configures
all mappers of the registry; only when every declared relationship is
configurable do the declared cascades of `deletePost` run, otherwise the
operation raises and the stored state is untouched. -/
def DB.ormDeletePost (db : DB) (pid : Nat) : Except String DB :=
  if mappersConfigurable then Except.ok (db.deletePost pid)
  else Except.error noForeignKeysMsg

/-- Modelled from the spec: insertion is performed by the storage engine,
which is not part of the repository source; per the spec, foreign-key
constraints are "enforced by the underlying storage engine at write
time" and inserting a Follower row with a non-existent user id "must
fail with a foreign-key violation".  Both declared foreign keys
(`user_from_id` and `user_to_id`, each referencing `users.id`) are
checked; on violation an error is returned and no row is stored. -/
def DB.insertFollower (db : DB) (row : FollowerRow) : Except String DB :=
  if db.users.any (fun u => u.id == row.user_from_id) &&
     db.users.any (fun u => u.id == row.user_to_id) then
    Except.ok { db with followers := db.followers ++ [row] }
  else
    Except.error "FOREIGN KEY constraint failed"

/-- The stored state after an attempted Follower insertion: unchanged
when the insertion fails. -/
def DB.applyInsertFollower (db : DB) (row : FollowerRow) : DB :=
  match db.insertFollower row with
  | Except.ok db2 => db2
  | Except.error _ => db

/-- Modelled from the spec: insertion is performed by the storage engine,
which is not part of the repository source; per the spec, `username` and
`email` are declared `unique=True` and "inserting a duplicate must fail
with a uniqueness violation".  The engine rejects a new row whose
username or email equals that of a stored row. -/
def DB.insertUser (db : DB) (row : UserRow) : Except String DB :=
  if db.users.any (fun u => u.username == row.username) then
    Except.error "UNIQUE constraint failed: users.username"
  else if db.users.any (fun u => u.email == row.email) then
    Except.error "UNIQUE constraint failed: users.email"
  else
    Except.ok { db with users := db.users ++ [row] }

/-- Modelled from the spec: insertion is performed by the storage engine,
which is not part of the repository source; per the spec, `Media.type`
is an `Enum(MediaType)` column and "any other value must fail at
insertion", and `post_id` is a foreign key into `post`.  The enum value
is checked first, then the foreign key. -/
def DB.insertMedia (db : DB) (row : MediaRow) : Except String DB :=
  if row.type ∈ mediaTypeValues then
    if db.posts.any (fun p => p.id == row.post_id) then
      Except.ok { db with media := db.media ++ [row] }
    else
      Except.error "FOREIGN KEY constraint failed"
  else
    Except.error "invalid value for Enum MediaType"

/-- The stored state after an attempted Media insertion: unchanged when
the insertion fails. -/
def DB.applyInsertMedia (db : DB) (row : MediaRow) : DB :=
  match db.insertMedia row with
  | Except.ok db2 => db2
  | Except.error _ => db

/-- `default=datetime.datetime.utcnow` on a timestamp column: when no
value is supplied for the column, the current time at insertion is
filled in; a supplied value is kept. -/
def applyUtcnowDefault (v : Option Nat) (now : Nat) : Option Nat :=
  match v with
  | some t => some t
  | none => some now

/-- Modelled from the spec: row insertion machinery is library code not
in the source; the `followed_at` column declares
`default=datetime.datetime.utcnow`, applied when the field is absent. -/
def DB.addFollower (db : DB) (row : FollowerRow) (now : Nat) : DB :=
  { db with followers :=
      db.followers ++ [{ row with followed_at := applyUtcnowDefault row.followed_at now }] }

/-- Modelled from the spec: row insertion machinery is library code not
in the source; the `created_at` column of `post` declares
`default=datetime.datetime.utcnow`, applied when the field is absent. -/
def DB.addPost (db : DB) (row : PostRow) (now : Nat) : DB :=
  { db with posts :=
      db.posts ++ [{ row with created_at := applyUtcnowDefault row.created_at now }] }

/-- Modelled from the spec: row insertion machinery is library code not
in the source; the `created_at` column of `comment` declares
`default=datetime.datetime.utcnow`, applied when the field is absent. -/
def DB.addComment (db : DB) (row : CommentRow) (now : Nat) : DB :=
  { db with comments :=
      db.comments ++ [{ row with created_at := applyUtcnowDefault row.created_at now }] }

/-- Modelled from the spec: row insertion machinery is library code not
in the source; the `uploaded_at` column of `media` declares
`default=datetime.datetime.utcnow`, applied when the field is absent. -/
def DB.addMedia (db : DB) (row : MediaRow) (now : Nat) : DB :=
  { db with media :=
      db.media ++ [{ row with uploaded_at := applyUtcnowDefault row.uploaded_at now }] }

/- ------------------------------------------------------------------
   Diagram renderer (`_generate_colored_diagram`), embedded as a pure
   builder of a graph description.
   ------------------------------------------------------------------ -/

/-- One graph node: graphviz node name, its HTML-like label, its shape. -/
structure Node where
  name : String
  label : String
  shape : String
  deriving DecidableEq, Repr

/-- One graph edge: tail endpoint (with port), head endpoint (with port),
and the arrowhead attribute. -/
structure Edge where
  tail : String
  head : String
  arrowhead : String
  deriving DecidableEq, Repr

/-- The directed-graph description built by the renderer. -/
structure Digraph where
  name : String
  format : String
  rankdir : String
  splines : String
  bgcolor : String
  nodes : List Node
  edges : List Edge
  deriving DecidableEq, Repr

/-- The header row of a table node label: a two-column-span blue cell
holding the table name in bold white. -/
def headerRow (name : String) : String :=
  "<TR><TD COLSPAN=\"2\" BGCOLOR=\"deepskyblue\" ALIGN=\"CENTER\"><FONT COLOR=\"white\"><B>" ++
    name ++ "</B></FONT></TD></TR>"

/-- Split a character list on every occurrence of the separator
character, as `str.split(sep)` does. -/
def splitOnChar (sep : Char) (cs : List Char) : List (List Char) :=
  match cs with
  | [] => [[]]
  | c :: rest =>
      let r := splitOnChar sep rest
      if c == sep then [] :: r
      else
        match r with
        | [] => [[c]]
        | h :: t => (c :: h) :: t

/-- Remove leading and trailing whitespace, as `str.strip()` does. -/
def stripChars (cs : List Char) : List Char :=
  ((cs.dropWhile Char.isWhitespace).reverse.dropWhile Char.isWhitespace).reverse

/-- One body row of a table node label, from a `"name: type"` column
string: split on the colon, strip both parts, and emit a row whose
field-name cell carries a PORT attribute equal to the field name and
whose second cell shows the field type in gray.  The source unpacks the
split into exactly two parts (a different shape would raise at runtime),
so any other shape yields `none`. -/
def bodyRow (col : String) : Option String :=
  match (splitOnChar ':' col.data).map (fun cs => String.mk (stripChars cs)) with
  | [fieldName, fieldType] =>
      some ("<TR><TD PORT=\"" ++ fieldName ++ "\" ALIGN=\"LEFT\">" ++ fieldName ++
        "</TD><TD ALIGN=\"RIGHT\"><FONT COLOR=\"gray\">" ++ fieldType ++ "</FONT></TD></TR>")
  | _ => none

/-- The concatenation of the body rows for a column list, in order. -/
def bodyRowsFor (columns : List String) : Option String :=
  columns.foldl
    (fun acc col => do
      let rows ← acc
      let r ← bodyRow col
      pure (rows ++ r))
    (some "")

/-- `create_table_node`: build a node named after the table, whose label
is an HTML table of the header row followed by the body rows, with shape
`plaintext`. -/
def createTableNode (name : String) (columns : List String) : Option Node := do
  let body ← bodyRowsFor columns
  let htmlLabel :=
    "<<TABLE BORDER=\"0\" CELLBORDER=\"1\" CELLSPACING=\"0\">" ++
      headerRow name ++ body ++ "</TABLE>>"
  pure { name := name, label := htmlLabel, shape := "plaintext" }

/-- The hardcoded table list passed to `create_table_node`, in source order. -/
def tableDefs : List (String × List String) :=
  [ ("User", ["ID: int", "username: string", "firstname: string", "lastname: string",
      "email: string"])
  , ("Follower", ["user_from_id: int", "user_to_id: int", "followed_at: datetime"])
  , ("Post", ["ID: int", "user_id: int", "caption: text", "created_at: datetime"])
  , ("Comment", ["ID: int", "comment_text: string", "author_id: int", "post_id: int",
      "created_at: datetime"])
  , ("Media", ["ID: int", "type: enum", "url: string", "post_id: int",
      "uploaded_at: datetime"]) ]

/-- The six `dot.edge` calls, in source order, each with `arrowhead='none'`. -/
def diagramEdges : List Edge :=
  [ { tail := "Follower:user_from_id", head := "User:ID", arrowhead := "none" }
  , { tail := "Follower:user_to_id", head := "User:ID", arrowhead := "none" }
  , { tail := "Post:user_id", head := "User:ID", arrowhead := "none" }
  , { tail := "Comment:author_id", head := "User:ID", arrowhead := "none" }
  , { tail := "Comment:post_id", head := "Post:ID", arrowhead := "none" }
  , { tail := "Media:post_id", head := "Post:ID", arrowhead := "none" } ]

/-- `_generate_colored_diagram`: the graph description it assembles —
digraph `Instagram_Model` in png format with the fixed attributes, one
node per entry of the hardcoded table list, and the six edges. -/
def generateColoredDiagram : Option Digraph := do
  let ns ← tableDefs.mapM (fun p => createTableNode p.1 p.2)
  pure
    { name := "Instagram_Model", format := "png", rankdir := "LR", splines := "ortho",
      bgcolor := "white", nodes := ns, edges := diagramEdges }

/-- The observable world the script touches: the stored database state
and the two file artifacts the renderer deals with (`diagram.png`, and
the intermediate dot-source file removed by `cleanup=True`).  File
contents are held structurally. -/
structure World where
  db : DB
  schemaTables : List String
  diagramPng : Option Digraph
  dotSource : Option Digraph
  deriving DecidableEq, Repr

/-- The diagram step: `dot.render(filename='diagram', cleanup=True)` —
writes the rendered image (overwriting any existing one), removes the
intermediate dot-source artifact, and touches nothing else. -/
def runDiagramStep (w : World) : World :=
  { w with diagramPng := generateColoredDiagram, dotSource := none }

/-- The table names registered on the declarative base metadata. -/
def metadataTableNames : List String :=
  metadataTableSpecs.map (fun t => t.name)

/-- Create each table of `toCreate` in order, only when absent. -/
def ensureTables (toCreate : List String) (present : List String) : List String :=
  match toCreate with
  | [] => present
  | t :: ts => ensureTables ts (if t ∈ present then present else present ++ [t])

/-- Modelled from the spec: `Base.metadata.create_all(engine)` is library
code not in the source; per the spec it is the operation "ensure schema
exists in the target storage engine", "creating tables only if they are
absent".  It creates each registered table that is not already present. -/
def createAll (present : List String) : List String :=
  ensureTables metadataTableNames present

/- ------------------------------------------------------------------
   Claim-side descriptions, written from the spec's words, to be
   compared with the definitions embedded from the source.
   ------------------------------------------------------------------ -/

/-- The column lists the diagram shows, as (name, type) pairs per entity,
for comparison with the renderer's parsed output. -/
def claimTableColumns : List (String × List (String × String)) :=
  [ ("User", [("ID", "int"), ("username", "string"), ("firstname", "string"),
      ("lastname", "string"), ("email", "string")])
  , ("Follower", [("user_from_id", "int"), ("user_to_id", "int"), ("followed_at", "datetime")])
  , ("Post", [("ID", "int"), ("user_id", "int"), ("caption", "text"), ("created_at", "datetime")])
  , ("Comment", [("ID", "int"), ("comment_text", "string"), ("author_id", "int"),
      ("post_id", "int"), ("created_at", "datetime")])
  , ("Media", [("ID", "int"), ("type", "enum"), ("url", "string"), ("post_id", "int"),
      ("uploaded_at", "datetime")]) ]

/-- Written from the spec's words: a body row gives the column's name and
type, and the column-name cell carries a PORT attribute equal to the
column name (the styling attributes are the renderer's fixed ones). -/
def claimBodyRow (colName colType : String) : String :=
  "<TR><TD PORT=\"" ++ colName ++ "\" ALIGN=\"LEFT\">" ++ colName ++
    "</TD><TD ALIGN=\"RIGHT\"><FONT COLOR=\"gray\">" ++ colType ++ "</FONT></TD></TR>"

/-- Written from the spec's words: the header row holds the table name
(in the renderer's fixed styling). -/
def claimHeaderRow (name : String) : String :=
  "<TR><TD COLSPAN=\"2\" BGCOLOR=\"deepskyblue\" ALIGN=\"CENTER\"><FONT COLOR=\"white\"><B>" ++
    name ++ "</B></FONT></TD></TR>"

/-- Written from the spec's words: a node label is a markup table of the
header row followed by one body row per listed column. -/
def claimNodeLabel (name : String) (cols : List (String × String)) : String :=
  "<<TABLE BORDER=\"0\" CELLBORDER=\"1\" CELLSPACING=\"0\">" ++ claimHeaderRow name ++
    String.join (cols.map (fun c => claimBodyRow c.1 c.2)) ++ "</TABLE>>"

/-- Written from the spec's words: one node per table, labelled as above. -/
def claimNode (name : String) (cols : List (String × String)) : Node :=
  { name := name, label := claimNodeLabel name cols, shape := "plaintext" }

/-- The six foreign-key relationships the claim lists: referencing
(table, column) and the referenced table whose primary-key port the edge
reaches. -/
def claimFKs : List ((String × String) × String) :=
  [ (("Follower", "user_from_id"), "User")
  , (("Follower", "user_to_id"), "User")
  , (("Post", "user_id"), "User")
  , (("Comment", "author_id"), "User")
  , (("Comment", "post_id"), "Post")
  , (("Media", "post_id"), "Post") ]

/-- Written from the spec's words: an edge runs from the referencing
column's connection point to the primary-key connection point (port
`ID`) of the referenced table, with no arrowhead. -/
def claimEdge (fk : (String × String) × String) : Edge :=
  { tail := fk.1.1 ++ ":" ++ fk.1.2, head := fk.2 ++ ":ID", arrowhead := "none" }

/-- Number of occurrences of a pattern inside a character list. -/
def countOccurs (pat : List Char) (cs : List Char) : Nat :=
  match cs with
  | [] => 0
  | _ :: rest => (if pat.isPrefixOf cs then 1 else 0) + countOccurs pat rest

/-- Row-count and port evidence about the Follower node: total markup
rows of its label (header included) and the number of occurrences of a
PORT attribute for the follower table's primary-key column `id`. -/
def followerNodeInfo : Option (Nat × Nat) :=
  generateColoredDiagram.bind (fun g =>
    (g.nodes.find? (fun n => n.name == "Follower")).map (fun n =>
      (countOccurs "<TR>".data n.label.data, countOccurs "PORT=\"id\"".data n.label.data)))

/-- Uniqueness invariant on the users table: any two distinct stored
rows have different usernames and different emails. -/
def usersUnique (l : List UserRow) : Prop :=
  l.Pairwise (fun a b => a.username ≠ b.username ∧ a.email ≠ b.email)

/- ------------------------------------------------------------------
   Concrete sample data for witnesses.
   ------------------------------------------------------------------ -/

/-- A sample stored user. -/
def user1 : UserRow :=
  { id := 1, username := "ana", firstname := "Ana", lastname := "Alpha", email := "ana@example.com" }

/-- A fresh user row for insertion, distinct from `user1`. -/
def user2 : UserRow :=
  { id := 2, username := "bob", firstname := "Bob", lastname := "Beta", email := "bob@example.com" }

/-- A sample stored post by `user1`. -/
def post1 : PostRow := { id := 1, user_id := 1, caption := some "hello", created_at := some 5 }

/-- A sample stored comment on `post1`. -/
def comment1 : CommentRow :=
  { id := 1, comment_text := "nice", author_id := 1, post_id := 1, created_at := some 6 }

/-- A sample stored media attachment on `post1`. -/
def media1 : MediaRow :=
  { id := 1, type := "IMAGE", url := "http://example.com/a.png", post_id := 1, uploaded_at := some 7 }

/-- A small concrete database state. -/
def sampleDB : DB :=
  { users := [user1], followers := [], posts := [post1], comments := [comment1], media := [media1] }

/-- A Follower row whose `user_from_id` matches no stored user. -/
def badFollower : FollowerRow :=
  { id := 1, user_from_id := 2, user_to_id := 1, followed_at := none }

/-- A Media row whose type value is outside the enum. -/
def badMedia : MediaRow :=
  { id := 2, type := "AUDIO", url := "http://example.com/a.mp3", post_id := 1, uploaded_at := none }

/-- A Follower row inserted without a timestamp value. -/
def follower0 : FollowerRow := { id := 2, user_from_id := 1, user_to_id := 1, followed_at := none }

/-- A Post row inserted without a timestamp value. -/
def post0 : PostRow := { id := 2, user_id := 1, caption := none, created_at := none }

/-- A Comment row inserted without a timestamp value. -/
def comment0 : CommentRow :=
  { id := 2, comment_text := "late", author_id := 1, post_id := 1, created_at := none }

/-- A Media row inserted without a timestamp value. -/
def media0 : MediaRow :=
  { id := 3, type := "GIF", url := "http://example.com/b.gif", post_id := 1, uploaded_at := none }

/- ------------------------------------------------------------------
   Helper lemmas.
   ------------------------------------------------------------------ -/

set_option maxRecDepth 100000

theorem ensureTables_mem_of_mem : ∀ (l present : List String) (s : String),
    s ∈ present → s ∈ ensureTables l present
  | [], _, _, hs => hs
  | t :: ts, present, s, hs => by
      by_cases ht : t ∈ present
      · simpa [ensureTables, ht] using ensureTables_mem_of_mem ts present s hs
      · simpa [ensureTables, ht] using
          ensureTables_mem_of_mem ts (present ++ [t]) s (List.mem_append_left _ hs)

theorem ensureTables_creates : ∀ (l present : List String) (s : String),
    s ∈ l → s ∈ ensureTables l present
  | [], _, s, hs => absurd hs (List.not_mem_nil s)
  | t :: ts, present, s, hs => by
      by_cases hst : s = t
      · subst hst
        by_cases ht : s ∈ present
        · simpa [ensureTables, ht] using ensureTables_mem_of_mem ts present s ht
        · simpa [ensureTables, ht] using
            ensureTables_mem_of_mem ts (present ++ [s]) s
              (List.mem_append_right _ (List.mem_singleton_self s))
      · have hs2 : s ∈ ts := by
          rcases List.mem_cons.mp hs with h | h
          · exact absurd h hst
          · exact h
        by_cases ht : t ∈ present
        · simpa [ensureTables, ht] using ensureTables_creates ts present s hs2
        · simpa [ensureTables, ht] using ensureTables_creates ts (present ++ [t]) s hs2

theorem ensureTables_all_present : ∀ (l present : List String),
    (∀ t ∈ l, t ∈ present) → ensureTables l present = present
  | [], _, _ => rfl
  | t :: ts, present, h => by
      have ht : t ∈ present := h t (List.mem_cons_self t ts)
      simpa [ensureTables, ht] using
        ensureTables_all_present ts present (fun s hs => h s (List.mem_cons_of_mem t hs))

/- ------------------------------------------------------------------
   Claim theorems.
   ------------------------------------------------------------------ -/

/-- C1: the claim says deleting a User removes, among other rows, all
Media rows owned by that user.  The source declares `User.media` with
cascade `all, delete-orphan`, but the `media` table has no foreign key
referencing `users` (its only foreign key is `post_id` into `post`):
the mapper finds no join column for `User.media`, so the declared
cascade cannot be configured and deleting a User fails instead of
cascading, while every other User relationship has exactly one join
column. -/
theorem C1_user_media_cascade_has_no_foreign_key :
    userMediaRel.cascadeAllDeleteOrphan = true ∧
    userMediaRel.parent = "users" ∧
    userMediaRel.child = "media" ∧
    mediaTable.fkColsTo "users" = [] ∧
    RelSpec.joinCols userMediaRel = [] ∧
    RelSpec.configurable userMediaRel = false ∧
    RelSpec.joinCols userPostsRel = ["user_id"] ∧
    RelSpec.joinCols userCommentsRel = ["author_id"] ∧
    RelSpec.joinCols userFollowingRel = ["user_from_id"] ∧
    RelSpec.joinCols userFollowersRel = ["user_to_id"] := by decide

/-- C2: the claim says deleting a Post removes all Comment and Media rows
with that post's id.  The `Post.comments` and `Post.media` cascade
declarations are themselves well-formed (exactly one join column each),
but mapper configuration is registry-wide and aborts on `User.media`,
which has no foreign key into `users` (C1): an ORM deletion of a Post
therefore raises instead of running the declared cascades, and at the
concrete database holding one post with one comment and one media
attachment the delete errors out, so those rows are not removed. -/
theorem C2_delete_post_blocked_by_mapper_bug :
    RelSpec.configurable postCommentsRel = true ∧
    RelSpec.configurable postMediaRel = true ∧
    mappersConfigurable = false ∧
    (∀ db : DB, ∀ pid : Nat, db.ormDeletePost pid = Except.error noForeignKeysMsg) ∧
    sampleDB.ormDeletePost post1.id = Except.error noForeignKeysMsg := by
  have hm : mappersConfigurable = false := by decide
  refine ⟨by decide, by decide, hm, fun db pid => ?_, ?_⟩
  · simp [DB.ormDeletePost, hm]
  · simp [DB.ormDeletePost, hm]

/-- C3: inserting a Follower row one of whose user ids matches no stored
User id fails with a foreign-key violation and leaves the stored state
unchanged. -/
theorem C3_follower_fk_violation (db : DB) (row : FollowerRow)
    (h : (∀ u ∈ db.users, u.id ≠ row.user_from_id) ∨ (∀ u ∈ db.users, u.id ≠ row.user_to_id)) :
    db.insertFollower row = Except.error "FOREIGN KEY constraint failed" ∧
    db.applyInsertFollower row = db := by
  have hc : (db.users.any (fun u => u.id == row.user_from_id) &&
      db.users.any (fun u => u.id == row.user_to_id)) = false := by
    rcases h with h | h
    · have hx : db.users.any (fun u => u.id == row.user_from_id) = false := by
        rw [List.any_eq_false]
        intro u hu
        simpa using h u hu
      simp [hx]
    · have hx : db.users.any (fun u => u.id == row.user_to_id) = false := by
        rw [List.any_eq_false]
        intro u hu
        simpa using h u hu
      simp [hx]
  constructor
  · simp [DB.insertFollower, hc]
  · simp [DB.applyInsertFollower, DB.insertFollower, hc]

/-- C3 witness: inserting a follow edge from a non-existent user id 2
into a database whose only user has id 1. -/
theorem C3_follower_fk_violation_witness :
    (∀ u ∈ sampleDB.users, u.id ≠ badFollower.user_from_id) ∧
    (sampleDB.insertFollower badFollower = Except.error "FOREIGN KEY constraint failed" ∧
     sampleDB.applyInsertFollower badFollower = sampleDB) :=
  ⟨by decide, C3_follower_fk_violation sampleDB badFollower (Or.inl (by decide))⟩

/-- C4: under the uniqueness invariant a successful User insertion keeps
usernames and emails pairwise distinct, and inserting a row whose
username or email equals that of a stored user fails with a uniqueness
violation. -/
theorem C4_user_uniqueness (db : DB) (row : UserRow) (h : usersUnique db.users) :
    (∀ db2, db.insertUser row = Except.ok db2 → usersUnique db2.users) ∧
    (∀ u ∈ db.users, u.username = row.username ∨ u.email = row.email →
      ∃ msg, db.insertUser row = Except.error msg) := by
  constructor
  · intro db2 hok
    by_cases h1 : db.users.any (fun v => v.username == row.username) = true
    · simp [DB.insertUser, h1] at hok
    · by_cases h2 : db.users.any (fun v => v.email == row.email) = true
      · simp [DB.insertUser, h1, h2] at hok
      · simp [DB.insertUser, h1, h2] at hok
        have h1x : ∀ u ∈ db.users, u.username ≠ row.username := by
          intro u hu he
          exact h1 (List.any_eq_true.mpr ⟨u, hu, by simp [he]⟩)
        have h2x : ∀ u ∈ db.users, u.email ≠ row.email := by
          intro u hu he
          exact h2 (List.any_eq_true.mpr ⟨u, hu, by simp [he]⟩)
        subst hok
        show (db.users ++ [row]).Pairwise _
        rw [List.pairwise_append]
        refine ⟨h, by simp, fun a ha b hb => ?_⟩
        simp only [List.mem_singleton] at hb
        subst hb
        exact ⟨h1x a ha, h2x a ha⟩
  · intro u hu hcase
    by_cases h1 : db.users.any (fun v => v.username == row.username) = true
    · exact ⟨"UNIQUE constraint failed: users.username", by simp [DB.insertUser, h1]⟩
    · have h2 : db.users.any (fun v => v.email == row.email) = true := by
        rcases hcase with hcx | hcx
        · exact absurd (List.any_eq_true.mpr ⟨u, hu, by simp [hcx]⟩) h1
        · exact List.any_eq_true.mpr ⟨u, hu, by simp [hcx]⟩
      exact ⟨"UNIQUE constraint failed: users.email", by simp [DB.insertUser, h1, h2]⟩

/-- C4 witness: a database holding one user, and a fresh distinct user. -/
theorem C4_user_uniqueness_witness :
    usersUnique sampleDB.users ∧
    ((∀ db2, sampleDB.insertUser user2 = Except.ok db2 → usersUnique db2.users) ∧
     (∀ u ∈ sampleDB.users, u.username = user2.username ∨ u.email = user2.email →
       ∃ msg, sampleDB.insertUser user2 = Except.error msg)) :=
  ⟨by simp [usersUnique, sampleDB],
   C4_user_uniqueness sampleDB user2 (by simp [usersUnique, sampleDB])⟩

/-- C5: inserting a Media row whose type value is not one of the enum
values IMAGE, VIDEO, GIF fails at insertion and leaves the stored state
unchanged; every MediaType member's value is admissible. -/
theorem C5_media_enum_restriction (db : DB) (row : MediaRow) (h : row.type ∉ mediaTypeValues) :
    (∃ msg, db.insertMedia row = Except.error msg) ∧
    db.applyInsertMedia row = db ∧
    (∀ t : MediaType, t.value ∈ mediaTypeValues) := by
  refine ⟨⟨"invalid value for Enum MediaType", ?_⟩, ?_, ?_⟩
  · simp [DB.insertMedia, h]
  · simp [DB.applyInsertMedia, DB.insertMedia, h]
  · intro t
    cases t <;> simp [MediaType.value, mediaTypeValues]

/-- C5 witness: inserting a media row with type AUDIO. -/
theorem C5_media_enum_restriction_witness :
    badMedia.type ∉ mediaTypeValues ∧
    ((∃ msg, sampleDB.insertMedia badMedia = Except.error msg) ∧
     sampleDB.applyInsertMedia badMedia = sampleDB ∧
     (∀ t : MediaType, t.value ∈ mediaTypeValues)) :=
  ⟨by decide, C5_media_enum_restriction sampleDB badMedia (by decide)⟩

/-- C6 counterexample: the follower table declares four columns, `id`
among them, but the rendered Follower node's label has four markup rows
in total (the header plus only three body rows) and no PORT attribute
for the column `id`: the node does not carry one body row per column of
the follower table. -/
theorem C6_follower_id_row_missing :
    followerTable.cols.map (fun c => c.name) =
      ["id", "user_from_id", "user_to_id", "followed_at"] ∧
    followerNodeInfo = some (4, 0) := by decide

/-- C6 (amended): the renderer builds exactly one node per entity — five
nodes with pairwise-distinct names in the fixed order — and each node's
label is a header row holding the entity name followed by one body row
per entry of the renderer's hardcoded column list for that entity, each
row giving the entry's name and type with the name cell carrying a PORT
attribute equal to the entry name. -/
theorem C6_diagram_nodes :
    generateColoredDiagram.map Digraph.nodes =
      some (claimTableColumns.map (fun p => claimNode p.1 p.2)) ∧
    generateColoredDiagram.map (fun g => g.nodes.map (fun n => n.name)) =
      some ["User", "Follower", "Post", "Comment", "Media"] ∧
    (["User", "Follower", "Post", "Comment", "Media"] : List String).Nodup := by
  refine ⟨by decide, by decide, by decide⟩

/-- C7: the renderer draws exactly six edges, one per foreign-key
relationship, each running from the referencing column's connection
point to the primary-key connection point (port ID) of the referenced
table, all with no arrowhead. -/
theorem C7_diagram_edges :
    generateColoredDiagram.map Digraph.edges = some (claimFKs.map claimEdge) ∧
    diagramEdges.length = 6 ∧
    (∀ e ∈ diagramEdges, e.arrowhead = "none") := by
  refine ⟨by decide, by decide, by decide⟩

/-- C8: the diagram step is deterministic and side-effect-free on the
schema and stored state: running it twice yields the same world (hence
the same image artifact), and a run changes neither the declared schema
nor the database. -/
theorem C8_diagram_step_idempotent (w : World) :
    runDiagramStep (runDiagramStep w) = runDiagramStep w ∧
    (runDiagramStep w).diagramPng = generateColoredDiagram ∧
    (runDiagramStep w).db = w.db ∧
    (runDiagramStep w).schemaTables = w.schemaTables :=
  ⟨rfl, rfl, rfl, rfl⟩

/-- C9: schema creation creates each registered table only if absent:
when every registered table already exists the operation changes
nothing, a second run after any first run is a no-op, and every
registered table is present after a run. -/
theorem C9_create_all_idempotent (s s2 : List String)
    (h : ∀ t ∈ metadataTableNames, t ∈ s) :
    createAll s = s ∧
    createAll (createAll s2) = createAll s2 ∧
    (∀ t ∈ metadataTableNames, t ∈ createAll s2) := by
  have hall : ∀ t ∈ metadataTableNames, t ∈ createAll s2 :=
    fun t ht => ensureTables_creates metadataTableNames s2 t ht
  exact ⟨ensureTables_all_present metadataTableNames s h,
    ensureTables_all_present metadataTableNames (createAll s2) hall, hall⟩

/-- C9 witness: a database already holding the whole schema, and a run
starting from an empty database. -/
theorem C9_create_all_idempotent_witness :
    (∀ t ∈ metadataTableNames, t ∈ metadataTableNames) ∧
    (createAll metadataTableNames = metadataTableNames ∧
     createAll (createAll []) = createAll [] ∧
     (∀ t ∈ metadataTableNames, t ∈ createAll [])) :=
  ⟨by decide, C9_create_all_idempotent metadataTableNames [] (by decide)⟩

/-- C10: rows inserted into follower, post, comment and media without an
explicit timestamp value get the current time at insertion filled into
the timestamp column (followed_at, created_at, created_at, uploaded_at),
not null. -/
theorem C10_timestamp_defaults (db : DB) (f : FollowerRow) (p : PostRow) (c : CommentRow)
    (m : MediaRow) (now : Nat)
    (hf : f.followed_at = none) (hp : p.created_at = none)
    (hc : c.created_at = none) (hm : m.uploaded_at = none) :
    (db.addFollower f now).followers = db.followers ++ [{ f with followed_at := some now }] ∧
    (db.addPost p now).posts = db.posts ++ [{ p with created_at := some now }] ∧
    (db.addComment c now).comments = db.comments ++ [{ c with created_at := some now }] ∧
    (db.addMedia m now).media = db.media ++ [{ m with uploaded_at := some now }] := by
  refine ⟨?_, ?_, ?_, ?_⟩ <;>
    simp [DB.addFollower, DB.addPost, DB.addComment, DB.addMedia,
      applyUtcnowDefault, hf, hp, hc, hm]

/-- C10 witness: concrete rows inserted without timestamps at time 42. -/
theorem C10_timestamp_defaults_witness :
    (follower0.followed_at = none ∧ post0.created_at = none ∧
     comment0.created_at = none ∧ media0.uploaded_at = none) ∧
    ((sampleDB.addFollower follower0 42).followers =
        sampleDB.followers ++ [{ follower0 with followed_at := some 42 }] ∧
     (sampleDB.addPost post0 42).posts =
        sampleDB.posts ++ [{ post0 with created_at := some 42 }] ∧
     (sampleDB.addComment comment0 42).comments =
        sampleDB.comments ++ [{ comment0 with created_at := some 42 }] ∧
     (sampleDB.addMedia media0 42).media =
        sampleDB.media ++ [{ media0 with uploaded_at := some 42 }]) :=
  ⟨⟨rfl, rfl, rfl, rfl⟩,
   C10_timestamp_defaults sampleDB follower0 post0 comment0 media0 42 rfl rfl rfl rfl⟩

end Models
